import Mathlib

/-!
Shallow embedding of the `bevy_entity_ptr` crate: three read-only reference
kinds over an entity-component store.

Source files embedded:
  * `src/handle.rs` — `EntityHandle`, `BoundEntity`, `BoundEntityNav`
  * `src/ptr.rs`    — `WorldRef`, `EntityPtr`, `EntityPtrNavMany`
  * `src/nav.rs`    — `HasChildren`-based `children` navigation

The store itself (`bevy_ecs::world::World`) is an external collaborator; the
spec treats it as a black box exposing component lookup, a liveness query and
`despawn`.  It is modelled here by the structure `World`: entity ids are `Nat`,
component types are indexed by a `Nat` type id, and component payloads live in
the universe `Val`.  `World.get` returns `none` for a despawned entity, exactly
as `bevy_ecs`'s `World::get` does (it first resolves the entity's location);
`World.despawn` removes the entity and all its components.

Rust type parameters `T: Component` become the explicit type-id argument `ty`;
extractor closures `FnOnce(&T) -> …` become functions out of `Val`; the
`HasChildren::children_handles` trait method becomes an explicit function
argument.  Lazy iterators are modelled as lists.  The lifetime-erasing
`unsafe` conversion in `WorldRef::new` is the identity in this model (the
embedding assumes its safety contract: the store is unchanged while derived
pointers exist, which is exactly the regime all claims below quantify over).
-/

namespace BevyEntityPtr

/-- A lightweight handle to an entity (`EntityHandle` in `src/handle.rs`):
a newtype over the store's entity id.  The Rust struct derives
`PartialEq, Eq, Hash` structurally on its single field, so Lean's structural
equality models Rust's `==` on `EntityHandle`. -/
structure EntityHandle where
  entity : Nat
deriving DecidableEq

/-- Universe of component payloads used by the embedding: numeric data,
a single related handle (`Target(EntityHandle)`), an optional related handle
(`OptionalTarget(Option<EntityHandle>)`), and a list of related handles
(`ChildRefs(Vec<EntityHandle>)`), matching the component shapes the crate's
relationship traversal consumes. -/
inductive Val where
  | int (n : Int)
  | handleOf (h : EntityHandle)
  | optHandle (h : Option EntityHandle)
  | handles (hs : List EntityHandle)
deriving DecidableEq

/-- The external entity-component store (`bevy_ecs::world::World`), modelled
per the spec's black-box interface: `alive` is the liveness query
(`World::get_entity(e).is_ok()`), `components ty e` is the raw typed
attribute table. -/
structure World where
  alive : Nat → Bool
  components : Nat → Nat → Option Val

/-- Store lookup `World::get::<T>(entity)`: `bevy_ecs` first resolves the
entity's location, so a despawned entity yields `none` regardless of the
attribute table. -/
def World.get (w : World) (ty e : Nat) : Option Val :=
  if w.alive e then w.components ty e else none

/-- The liveness query `World::get_entity(entity).is_ok()`. -/
def World.get_entity_ok (w : World) (e : Nat) : Bool :=
  w.alive e

/-- Store mutation `World::despawn(entity)` (external collaborator): the
entity stops being alive and all its components are removed. -/
def World.despawn (w : World) (e : Nat) : World where
  alive := fun x => if x = e then false else w.alive x
  components := fun ty x => if x = e then none else w.components ty x

/-- An entity bound to a world reference (`BoundEntity<'w>` in
`src/handle.rs`): the entity id plus the borrowed store. -/
structure BoundEntity where
  entity : Nat
  world : World

/-- `BoundEntity::new(entity, world)`. -/
def BoundEntity.new (entity : Nat) (world : World) : BoundEntity :=
  ⟨entity, world⟩

/-- `EntityHandle::new(entity)`. -/
def EntityHandle.new (entity : Nat) : EntityHandle :=
  ⟨entity⟩

/-- `EntityHandle::get::<T>(world)`: `world.get::<T>(self.0)`. -/
def EntityHandle.get (self : EntityHandle) (ty : Nat) (w : World) : Option Val :=
  w.get ty self.entity

/-- `EntityHandle::has::<T>(world)`: `world.get::<T>(self.0).is_some()`. -/
def EntityHandle.has (self : EntityHandle) (ty : Nat) (w : World) : Bool :=
  (w.get ty self.entity).isSome

/-- `EntityHandle::is_alive(world)`: `world.get_entity(self.0).is_ok()`. -/
def EntityHandle.is_alive (self : EntityHandle) (w : World) : Bool :=
  w.get_entity_ok self.entity

/-- `EntityHandle::bind(world)`: `BoundEntity::new(self.0, world)`. -/
def EntityHandle.bind (self : EntityHandle) (w : World) : BoundEntity :=
  BoundEntity.new self.entity w

/-- Rust's `==` on `EntityHandle` (derived `PartialEq`): compares the single
wrapped id field. -/
def EntityHandle.beq (a b : EntityHandle) : Bool :=
  a.entity == b.entity

/-- The data the derived `Hash` impl of `EntityHandle` feeds to the hasher:
the wrapped entity id and nothing else. -/
def EntityHandle.hash_input (a : EntityHandle) : Nat :=
  a.entity

/-- `BoundEntity::handle()`: `EntityHandle(self.entity)`. -/
def BoundEntity.handle (self : BoundEntity) : EntityHandle :=
  ⟨self.entity⟩

/-- `BoundEntity::get::<T>()`: `self.world.get::<T>(self.entity)`. -/
def BoundEntity.get (self : BoundEntity) (ty : Nat) : Option Val :=
  self.world.get ty self.entity

/-- `BoundEntity::has::<T>()`: `self.world.get::<T>(self.entity).is_some()`. -/
def BoundEntity.has (self : BoundEntity) (ty : Nat) : Bool :=
  (self.world.get ty self.entity).isSome

/-- `BoundEntity::is_alive()`: `self.world.get_entity(self.entity).is_ok()`. -/
def BoundEntity.is_alive (self : BoundEntity) : Bool :=
  self.world.get_entity_ok self.entity

/-- `BoundEntity::follow::<T>(f)`: `self.get::<T>().map(|c| f(c).bind(self.world))`. -/
def BoundEntity.follow (self : BoundEntity) (ty : Nat) (f : Val → EntityHandle) :
    Option BoundEntity :=
  (self.get ty).map fun c => (f c).bind self.world

/-- `BoundEntity::follow_opt::<T>(f)`:
`self.get::<T>().and_then(|c| f(c).map(|h| h.bind(self.world)))`. -/
def BoundEntity.follow_opt (self : BoundEntity) (ty : Nat)
    (f : Val → Option EntityHandle) : Option BoundEntity :=
  (self.get ty).bind fun c => (f c).map fun h => h.bind self.world

/-- Navigation wrapper `BoundEntityNav<'w>` (`BoundEntity::nav()`). -/
structure BoundEntityNav where
  inner : BoundEntity

/-- `BoundEntity::nav()`. -/
def BoundEntity.nav (self : BoundEntity) : BoundEntityNav :=
  ⟨self⟩

/-- `BoundEntityNav::children::<T>()` from `src/nav.rs`:
`self.0.get::<T>().into_iter().flat_map(|c| c.children_handles().iter()
  .copied().map(|h| BoundEntity::new(h.entity(), self.0.world())))`,
with the `HasChildren::children_handles` trait method passed explicitly and
the iterator materialised as a list. -/
def BoundEntityNav.children (self : BoundEntityNav) (ty : Nat)
    (children_handles : Val → List EntityHandle) : List BoundEntity :=
  (self.inner.get ty).toList.flatMap fun c =>
    (children_handles c).map fun h => BoundEntity.new h.entity self.inner.world

/-- An entity pointer with erased store lifetime (`EntityPtr` in
`src/ptr.rs`): identical in shape to `BoundEntity`; the erased `'static`
lifetime has no counterpart in the model. -/
structure EntityPtr where
  entity : Nat
  world : World

/-- `EntityPtr::new(entity, world)`. -/
def EntityPtr.new (entity : Nat) (world : World) : EntityPtr :=
  ⟨entity, world⟩

/-- `EntityPtr::handle()`: `EntityHandle::new(self.entity)`. -/
def EntityPtr.handle (self : EntityPtr) : EntityHandle :=
  EntityHandle.new self.entity

/-- `EntityPtr::get::<T>()`: `self.world.get::<T>(self.entity)`. -/
def EntityPtr.get (self : EntityPtr) (ty : Nat) : Option Val :=
  self.world.get ty self.entity

/-- `EntityPtr::has::<T>()`: `self.world.get::<T>(self.entity).is_some()`. -/
def EntityPtr.has (self : EntityPtr) (ty : Nat) : Bool :=
  (self.world.get ty self.entity).isSome

/-- `EntityPtr::is_alive()`: `self.world.get_entity(self.entity).is_ok()`. -/
def EntityPtr.is_alive (self : EntityPtr) : Bool :=
  self.world.get_entity_ok self.entity

/-- `EntityPtr::follow::<T>(f)`:
`self.get::<T>().map(|c| EntityPtr::new(f(c).entity(), self.world))`. -/
def EntityPtr.follow (self : EntityPtr) (ty : Nat) (f : Val → EntityHandle) :
    Option EntityPtr :=
  (self.get ty).map fun c => EntityPtr.new (f c).entity self.world

/-- `EntityPtr::follow_opt::<T>(f)`:
`self.get::<T>().and_then(|c| f(c).map(|h| EntityPtr::new(h.entity(), self.world)))`. -/
def EntityPtr.follow_opt (self : EntityPtr) (ty : Nat)
    (f : Val → Option EntityHandle) : Option EntityPtr :=
  (self.get ty).bind fun c => (f c).map fun h => EntityPtr.new h.entity self.world

/-- `EntityPtr::follow_handle(handle)`:
`EntityPtr::new(handle.entity(), self.world)` — no liveness check. -/
def EntityPtr.follow_handle (self : EntityPtr) (h : EntityHandle) : EntityPtr :=
  EntityPtr.new h.entity self.world

/-- Rust's `==` on `EntityPtr` (the hand-written `PartialEq` impl in
`src/ptr.rs`): compares by entity id only, ignoring the world reference. -/
def EntityPtr.beq (a b : EntityPtr) : Bool :=
  a.entity == b.entity

/-- The data the hand-written `Hash` impl of `EntityPtr` feeds to the hasher:
`self.entity.hash(state)` — the entity id only, never the world. -/
def EntityPtr.hash_input (a : EntityPtr) : Nat :=
  a.entity

/-- Many-navigation wrapper `EntityPtrNavMany` (`EntityPtr::nav_many()`). -/
structure EntityPtrNavMany where
  inner : EntityPtr

/-- `EntityPtr::nav_many()`. -/
def EntityPtr.nav_many (self : EntityPtr) : EntityPtrNavMany :=
  ⟨self⟩

/-- `EntityPtrNavMany::children::<T>()` from `src/nav.rs`:
`self.0.get::<T>().into_iter().flat_map(|c| c.children_handles().iter()
  .copied().map(|h| EntityPtr::new(h.entity(), self.0.world())))`. -/
def EntityPtrNavMany.children (self : EntityPtrNavMany) (ty : Nat)
    (children_handles : Val → List EntityHandle) : List EntityPtr :=
  (self.inner.get ty).toList.flatMap fun c =>
    (children_handles c).map fun h => EntityPtr.new h.entity self.inner.world

/-- The lifetime-erasing factory (`WorldRef` in `src/ptr.rs`): a store
reference whose borrow lifetime has been transmuted away.  The `unsafe`
transmute is the identity here; the model works under its contract (store
valid and unmutated while derived pointers exist). -/
structure WorldRef where
  world : World

/-- `WorldRef::new(world)` (the single `unsafe` constructor; identity in the
model). -/
def WorldRef.new (w : World) : WorldRef :=
  ⟨w⟩

/-- `WorldRef::entity(entity)`: `EntityPtr::new(entity, self.world)` —
returned unconditionally, alive or not. -/
def WorldRef.entity (self : WorldRef) (e : Nat) : EntityPtr :=
  EntityPtr.new e self.world

/-- `WorldRef::entity_opt(entity)`: `Some(EntityPtr::new(..))` when
`self.world.get_entity(entity).is_ok()`, else `None`. -/
def WorldRef.entity_opt (self : WorldRef) (e : Nat) : Option EntityPtr :=
  if self.world.get_entity_ok e then some (EntityPtr.new e self.world) else none

/-- `WorldRef::from_handle(handle)`: `EntityPtr::new(handle.entity(), self.world)`. -/
def WorldRef.from_handle (self : WorldRef) (h : EntityHandle) : EntityPtr :=
  EntityPtr.new h.entity self.world

/-- `WorldRef::get::<T>(entity)`: `self.world.get::<T>(entity)`. -/
def WorldRef.get (self : WorldRef) (ty e : Nat) : Option Val :=
  self.world.get ty e

/-- Concrete store used by the witness theorems: entities `0` and `1` are
alive; entity `0` carries component type `0` (a handle to entity `1`) and
component type `1` (the child list `[1]`). -/
def exampleWorld : World where
  alive := fun e => decide (e < 2)
  components := fun ty e =>
    if ty = 0 ∧ e = 0 then some (Val.handleOf ⟨1⟩)
    else if ty = 1 ∧ e = 0 then some (Val.handles [⟨1⟩])
    else none

/-- Concrete extractor used by witnesses (the Rust closure `|t| t.0` on a
`Target(EntityHandle)` component). -/
def exampleExtract : Val → EntityHandle
  | .handleOf h => h
  | _ => ⟨0⟩

/-- Concrete optional extractor used by witnesses (the Rust closure `|t| t.0`
on an `OptionalTarget(Option<EntityHandle>)` component). -/
def exampleExtractOpt : Val → Option EntityHandle
  | .optHandle h => h
  | _ => none

/-- Concrete `children_handles` used by witnesses (the `HasChildren` impl on
a `ChildRefs(Vec<EntityHandle>)` component). -/
def exampleChildren : Val → List EntityHandle
  | .handles hs => hs
  | _ => []

/-- Two optional traversal-pointer results agree observationally: both are
`none`, or both are `some` of pointers with equal entity ids observing the
same component value at every component type. -/
def ptrResultsAgree : Option EntityPtr → Option EntityPtr → Prop
  | none, none => True
  | some a, some b => a.entity = b.entity ∧ ∀ ty, a.get ty = b.get ty
  | _, _ => False

/-- Two optional scoped-accessor results agree observationally. -/
def boundResultsAgree : Option BoundEntity → Option BoundEntity → Prop
  | none, none => True
  | some a, some b => a.entity = b.entity ∧ ∀ ty, a.get ty = b.get ty
  | _, _ => False

theorem ptrResultsAgree_refl (o : Option EntityPtr) : ptrResultsAgree o o := by
  cases o <;> simp [ptrResultsAgree]

theorem boundResultsAgree_refl (o : Option BoundEntity) : boundResultsAgree o o := by
  cases o <;> simp [boundResultsAgree]

/-- C1: for every entity id, component type and store state, the plain handle,
the scoped accessor obtained by binding it, and the traversal pointer minted
from the same store by the factory return the same component lookup result. -/
theorem three_reference_kinds_agree_on_get (w : World) (e ty : Nat) :
    (EntityHandle.new e).get ty w = ((EntityHandle.new e).bind w).get ty ∧
    ((EntityHandle.new e).bind w).get ty = ((WorldRef.new w).entity e).get ty :=
  ⟨rfl, rfl⟩

/-- C2: after despawning `e`, every reference rebuilt for `e` — handle, scoped
accessor, traversal pointer — reports `is_alive = false` and `get = none` at
every component type; all the operations are total, so no error arises. -/
theorem despawned_entity_reads_none (w : World) (e ty : Nat) :
    (EntityHandle.new e).is_alive (w.despawn e) = false ∧
    (EntityHandle.new e).get ty (w.despawn e) = none ∧
    ((EntityHandle.new e).bind (w.despawn e)).is_alive = false ∧
    ((EntityHandle.new e).bind (w.despawn e)).get ty = none ∧
    ((WorldRef.new (w.despawn e)).entity e).is_alive = false ∧
    ((WorldRef.new (w.despawn e)).entity e).get ty = none := by
  simp [EntityHandle.is_alive, EntityHandle.get, EntityHandle.bind, EntityHandle.new,
    BoundEntity.new, BoundEntity.is_alive, BoundEntity.get, WorldRef.new, WorldRef.entity,
    EntityPtr.new, EntityPtr.is_alive, EntityPtr.get, World.despawn, World.get,
    World.get_entity_ok]

/-- C3: `WorldRef::entity` always returns a pointer (carrying the requested id,
with liveness observable only through `is_alive`), while `WorldRef::entity_opt`
returns `some` of that pointer exactly when the entity is alive and `none`
exactly when it is not. -/
theorem entity_total_entity_opt_checks_liveness (w : World) (e : Nat) :
    ((WorldRef.new w).entity e).entity = e ∧
    ((WorldRef.new w).entity e).is_alive = w.alive e ∧
    ((WorldRef.new w).entity_opt e = some ((WorldRef.new w).entity e) ↔ w.alive e = true) ∧
    ((WorldRef.new w).entity_opt e = none ↔ w.alive e = false) := by
  refine ⟨rfl, rfl, ?_, ?_⟩ <;>
    cases h : w.alive e <;>
      simp [WorldRef.new, WorldRef.entity, WorldRef.entity_opt, World.get_entity_ok, h,
        EntityPtr.new]

/-- C4: on both the scoped accessor and the traversal pointer, `follow`
succeeds exactly when component `ty` is present (returning a reference to the
entity the extractor names, bound to the same store) and fails exactly when it
is absent; `follow_opt` additionally returns `none` when the component is
present but the extractor yields `none`, collapsing the two cases. -/
theorem follow_matches_component_presence (w : World) (e ty : Nat)
    (f : Val → EntityHandle) (g : Val → Option EntityHandle) :
    ((((EntityHandle.new e).bind w).follow ty f).isSome
        = ((EntityHandle.new e).bind w).has ty) ∧
    ((((WorldRef.new w).entity e).follow ty f).isSome
        = ((WorldRef.new w).entity e).has ty) ∧
    (∀ c, w.get ty e = some c →
      ((EntityHandle.new e).bind w).follow ty f = some ((f c).bind w) ∧
      ((WorldRef.new w).entity e).follow ty f = some (EntityPtr.new (f c).entity w)) ∧
    (w.get ty e = none →
      ((EntityHandle.new e).bind w).follow ty f = none ∧
      ((WorldRef.new w).entity e).follow ty f = none) ∧
    (((EntityHandle.new e).bind w).follow_opt ty g = none ↔
      w.get ty e = none ∨ ∃ c, w.get ty e = some c ∧ g c = none) ∧
    (((WorldRef.new w).entity e).follow_opt ty g = none ↔
      w.get ty e = none ∨ ∃ c, w.get ty e = some c ∧ g c = none) ∧
    (∀ c h2, w.get ty e = some c → g c = some h2 →
      ((EntityHandle.new e).bind w).follow_opt ty g = some (h2.bind w) ∧
      ((WorldRef.new w).entity e).follow_opt ty g = some (EntityPtr.new h2.entity w)) := by
  cases hg : w.get ty e with
  | none =>
    simp [BoundEntity.follow, BoundEntity.follow_opt, BoundEntity.get, BoundEntity.has,
      EntityHandle.bind, EntityHandle.new, BoundEntity.new, WorldRef.new, WorldRef.entity,
      EntityPtr.new, EntityPtr.follow, EntityPtr.follow_opt, EntityPtr.get, EntityPtr.has, hg]
  | some c =>
    cases hgc : g c with
    | none =>
      simp only [BoundEntity.follow, BoundEntity.follow_opt, BoundEntity.get, BoundEntity.has,
        EntityHandle.bind, EntityHandle.new, BoundEntity.new, WorldRef.new, WorldRef.entity,
        EntityPtr.new, EntityPtr.follow, EntityPtr.follow_opt, EntityPtr.get, EntityPtr.has,
        hg, hgc]
      simp [hg, hgc]
      intro c1 h2 hc hx
      subst hc
      rw [hgc] at hx
      exact Option.noConfusion hx
    | some h2 =>
      simp only [BoundEntity.follow, BoundEntity.follow_opt, BoundEntity.get, BoundEntity.has,
        EntityHandle.bind, EntityHandle.new, BoundEntity.new, WorldRef.new, WorldRef.entity,
        EntityPtr.new, EntityPtr.follow, EntityPtr.follow_opt, EntityPtr.get, EntityPtr.has,
        hg, hgc]
      simp [hg, hgc]
      intro c1 h21 hc hx
      subst hc
      rw [hgc] at hx
      cases hx
      rfl

theorem follow_matches_component_presence_witness :
    ((EntityHandle.new 0).bind exampleWorld).follow 0 exampleExtract
      = some ((EntityHandle.new 1).bind exampleWorld) :=
  ((follow_matches_component_presence exampleWorld 0 0 exampleExtract
      exampleExtractOpt).2.2.1 (Val.handleOf ⟨1⟩) (by decide)).1

/-- C5: `children` on both navigators yields the empty list when the
relationship component is absent or its handle list is empty, and otherwise
yields exactly one reference per stored handle, in list order — always a
finite list, never a failure. -/
theorem children_empty_or_in_list_order (w : World) (e ty : Nat)
    (ch : Val → List EntityHandle) :
    (w.get ty e = none →
      ((EntityHandle.new e).bind w).nav.children ty ch = [] ∧
      ((WorldRef.new w).entity e).nav_many.children ty ch = []) ∧
    (∀ c, w.get ty e = some c →
      ((EntityHandle.new e).bind w).nav.children ty ch
          = (ch c).map (fun h => BoundEntity.new h.entity w) ∧
      ((WorldRef.new w).entity e).nav_many.children ty ch
          = (ch c).map (fun h => EntityPtr.new h.entity w) ∧
      (((EntityHandle.new e).bind w).nav.children ty ch).length = (ch c).length ∧
      (ch c = [] →
        ((EntityHandle.new e).bind w).nav.children ty ch = [] ∧
        ((WorldRef.new w).entity e).nav_many.children ty ch = [])) := by
  cases hg : w.get ty e <;>
    simp [BoundEntityNav.children, EntityPtrNavMany.children, BoundEntity.nav,
      EntityPtr.nav_many, BoundEntity.get, EntityPtr.get, BoundEntity.new, EntityPtr.new,
      EntityHandle.bind, EntityHandle.new, WorldRef.new, WorldRef.entity, hg]

theorem children_empty_or_in_list_order_witness :
    ((WorldRef.new exampleWorld).entity 0).nav_many.children 1 exampleChildren
      = [EntityPtr.new 1 exampleWorld] :=
  ((children_empty_or_in_list_order exampleWorld 0 1 exampleChildren).2
      (Val.handles [⟨1⟩]) (by decide)).2.1

/-- C6: equality and hashing depend only on the entity id, whichever of the
three reference kinds produced the reference: handles extracted from any kind
at the same id compare equal and feed the same hash data, traversal pointers
compare equal by id even across distinct stores, and references to different
ids never compare equal. -/
theorem references_compare_and_hash_by_id (w w' : World) (e e' : Nat) :
    EntityHandle.beq (EntityHandle.new e) (((EntityHandle.new e).bind w).handle) = true ∧
    EntityHandle.beq (((EntityHandle.new e).bind w).handle)
      (((WorldRef.new w').entity e).handle) = true ∧
    EntityPtr.beq ((WorldRef.new w).entity e) ((WorldRef.new w').entity e) = true ∧
    EntityHandle.hash_input (((EntityHandle.new e).bind w).handle)
      = EntityHandle.hash_input (((WorldRef.new w').entity e).handle) ∧
    EntityPtr.hash_input ((WorldRef.new w).entity e)
      = EntityHandle.hash_input (EntityHandle.new e) ∧
    (EntityHandle.beq (EntityHandle.new e) (EntityHandle.new e') = true ↔ e = e') ∧
    (EntityPtr.beq ((WorldRef.new w).entity e) ((WorldRef.new w').entity e') = true ↔
      e = e') := by
  simp [EntityHandle.beq, EntityPtr.beq, EntityHandle.hash_input, EntityPtr.hash_input,
    EntityHandle.new, EntityHandle.bind, BoundEntity.new, BoundEntity.handle, WorldRef.new,
    WorldRef.entity, EntityPtr.new, EntityPtr.handle]

/-- C7: converting a traversal pointer to a handle and re-binding it to the
same unchanged store — via `WorldRef::from_handle` or `EntityHandle::bind` —
yields a reference with the same entity id observing the same component data
at every component type. -/
theorem pointer_handle_roundtrip (w : World) (e ty : Nat) :
    ((WorldRef.new w).from_handle (((WorldRef.new w).entity e).handle)).entity
      = ((WorldRef.new w).entity e).entity ∧
    ((WorldRef.new w).from_handle (((WorldRef.new w).entity e).handle)).get ty
      = ((WorldRef.new w).entity e).get ty ∧
    ((((WorldRef.new w).entity e).handle).bind w).entity
      = ((WorldRef.new w).entity e).entity ∧
    ((((WorldRef.new w).entity e).handle).bind w).get ty
      = ((WorldRef.new w).entity e).get ty :=
  ⟨rfl, rfl, rfl, rfl⟩

/-- C8: running the same `follow` or `follow_opt` twice from the same starting
reference over the same unchanged store produces results that are both `none`
or both `some` of references with equal entity ids observing identical
component values — on both reference kinds. -/
theorem follow_twice_agrees (w : World) (e ty : Nat) (f : Val → EntityHandle)
    (g : Val → Option EntityHandle) :
    boundResultsAgree (((EntityHandle.new e).bind w).follow ty f)
      (((EntityHandle.new e).bind w).follow ty f) ∧
    boundResultsAgree (((EntityHandle.new e).bind w).follow_opt ty g)
      (((EntityHandle.new e).bind w).follow_opt ty g) ∧
    ptrResultsAgree (((WorldRef.new w).entity e).follow ty f)
      (((WorldRef.new w).entity e).follow ty f) ∧
    ptrResultsAgree (((WorldRef.new w).entity e).follow_opt ty g)
      (((WorldRef.new w).entity e).follow_opt ty g) :=
  ⟨boundResultsAgree_refl _, boundResultsAgree_refl _,
    ptrResultsAgree_refl _, ptrResultsAgree_refl _⟩

/-- C9: `EntityPtr::follow_handle` is total and unchecked: for any handle,
even one naming a dead or never-spawned entity, it returns a pointer carrying
the handle's entity id and the originating pointer's store; liveness of the
result is observable only through a later `is_alive` query. -/
theorem follow_handle_is_unchecked (w : World) (e : Nat) (h : EntityHandle) :
    (((WorldRef.new w).entity e).follow_handle h).entity = h.entity ∧
    (((WorldRef.new w).entity e).follow_handle h).world
      = ((WorldRef.new w).entity e).world ∧
    (((WorldRef.new w).entity e).follow_handle h).is_alive = w.alive h.entity :=
  ⟨rfl, rfl, rfl⟩

/-- C10: on every reference kind, `has` returns `true` exactly when `get`
returns `some` — the two are definitionally linked through the same store
lookup. -/
theorem has_iff_get_isSome (w : World) (e ty : Nat) :
    ((EntityHandle.new e).has ty w = ((EntityHandle.new e).get ty w).isSome) ∧
    (((EntityHandle.new e).bind w).has ty
      = (((EntityHandle.new e).bind w).get ty).isSome) ∧
    (((WorldRef.new w).entity e).has ty
      = (((WorldRef.new w).entity e).get ty).isSome) ∧
    ((EntityHandle.new e).has ty w = true ↔
      ∃ v, (EntityHandle.new e).get ty w = some v) := by
  refine ⟨rfl, rfl, rfl, ?_⟩
  simp [EntityHandle.has, EntityHandle.get, Option.isSome_iff_exists]

end BevyEntityPtr
